import Mathlib

/-!
Verification of `check_mongodb_mms`, a Nagios-style monitoring probe.

The embedding below follows the Go sources `src/check_mongodb_mms.go` and
`src/util/api.go`.  External collaborators that are not part of the
repository (the `nagiosplugin` threshold library, the `model` package, the
Go standard library's JSON decoding and URL escaping) are modelled from the
specification, as marked in the doc comments.  Machine floating point time
arithmetic is modelled with rationals; Go's `int(...)` conversion on a
float is truncation toward zero.
-/

namespace CheckMongodbMMS

/-- The four Nagios severities, as in the nagiosplugin library. -/
inductive Status where
  | OK
  | WARNING
  | CRITICAL
  | UNKNOWN
deriving DecidableEq, Repr

/-- The Nagios exit-code contract: OK=0, WARNING=1, CRITICAL=2, UNKNOWN=3. -/
def Status.exitCode : Status → Nat
  | .OK => 0
  | .WARNING => 1
  | .CRITICAL => 2
  | .UNKNOWN => 3

/-- One outcome record: a severity together with a human readable message. -/
structure CheckResult where
  status : Status
  message : String
deriving DecidableEq, Repr

/-- A performance datum: label, unit and numeric value
(`check.AddPerfDatum(metricName, "", lastDataPoint.Value)`). -/
structure PerfDatum where
  label : String
  unit : String
  value : ℚ
deriving DecidableEq, Repr

/-- The accumulating check state of the nagiosplugin `Check`:
results added by `AddResultf` and performance data added by `AddPerfDatum`. -/
structure Check where
  results : List CheckResult
  perfData : List PerfDatum
deriving DecidableEq, Repr

/-- The fresh check produced by `nagiosplugin.NewCheck()`. -/
def emptyCheck : Check := ⟨[], []⟩

/-- `check.AddResultf(status, msg)`: appends one outcome record. -/
def Check.addResult (c : Check) (s : Status) (m : String) : Check :=
  { c with results := c.results ++ [⟨s, m⟩] }

/-- `check.AddPerfDatum(label, unit, value)`: appends one performance datum. -/
def Check.addPerfDatum (c : Check) (label unit : String) (v : ℚ) : Check :=
  { c with perfData := c.perfData ++ [⟨label, unit, v⟩] }

/-- A parsed threshold range.  Modelled from the spec: the nagiosplugin
library is outside the repository; §4.2 describes a two-ended interval with
open ends (`none` bound = unbounded in that direction) and an inverted
sense flag set by the `@` prefix. -/
structure Range where
  invert : Bool
  lo : Option ℚ
  hi : Option ℚ
deriving DecidableEq, Repr

/-- Modelled from the spec: `check(range, value)` of the absent nagiosplugin
library.  Default sense: violation when `value < start OR value > end`;
inverted sense (`@`): violation when `start <= value <= end`; an unbounded
side never produces a violation in the default sense. -/
def Range.check (r : Range) (v : ℚ) : Bool :=
  let below := match r.lo with
    | none => false
    | some a => decide (v < a)
  let above := match r.hi with
    | none => false
    | some b => decide (b < v)
  if r.invert then !(below || above) else (below || above)

/-- Accumulate decimal digits; fails on a non-digit character. -/
def digitsToNat : List Char → Option Nat
  | [] => some 0
  | c :: cs =>
    if c.isDigit then
      (digitsToNat cs).map (fun rest => (c.toNat - 48) * 10 ^ cs.length + rest)
    else
      none

/-- Modelled from the spec: numeric bound parsing of the absent nagiosplugin
library — an optional minus sign, digits, and an optional decimal fraction.
Fails on malformed syntax. -/
def parseDecimal (cs : List Char) : Option ℚ :=
  let signAndBody : Bool × List Char :=
    match cs with
    | '-' :: rest => (true, rest)
    | rest => (false, rest)
  let neg := signAndBody.1
  let body := signAndBody.2
  let mag : Option ℚ :=
    match body.splitOn '.' with
    | [intPart] =>
      if intPart.isEmpty then none
      else (digitsToNat intPart).map (fun n => (n : ℚ))
    | [intPart, fracPart] =>
      if intPart.isEmpty || fracPart.isEmpty then none
      else
        match digitsToNat intPart, digitsToNat fracPart with
        | some n, some f => some ((n : ℚ) + (f : ℚ) / (10 : ℚ) ^ fracPart.length)
        | _, _ => none
    | _ => none
  mag.map (fun q => if neg then -q else q)

/-- Modelled from the spec: `parseRange(spec)` of the absent nagiosplugin
library (§4.2).  An optional `@` prefix inverts the sense; bounds are
`start:end`; `~` (or an absent end) means unbounded in that direction; a
bare value with no colon means `0:value`; malformed syntax fails. -/
def parseRange (spec : String) : Except String Range :=
  let invertAndBody : Bool × List Char :=
    match spec.data with
    | '@' :: rest => (true, rest)
    | rest => (false, rest)
  let invert := invertAndBody.1
  let body := invertAndBody.2
  match body.splitOn ':' with
  | [single] =>
    match parseDecimal single with
    | some v => .ok ⟨invert, some 0, some v⟩
    | none => .error ("unparseable range " ++ spec)
  | [startPart, endPart] =>
    let lo? : Option (Option ℚ) :=
      if startPart = ['~'] then some none
      else if startPart.isEmpty then some (some 0)
      else (parseDecimal startPart).map some
    let hi? : Option (Option ℚ) :=
      if endPart = ['~'] || endPart.isEmpty then some none
      else (parseDecimal endPart).map some
    match lo?, hi? with
    | some lo, some hi => .ok ⟨invert, lo, hi⟩
    | _, _ => .error ("unparseable range " ++ spec)
  | _ => .error ("unparseable range " ++ spec)

/-- Go's `int(x)` on a float: truncation toward zero.  On a rational in
lowest terms this is t-division of the numerator by the denominator. -/
def truncInt (q : ℚ) : ℤ :=
  Int.tdiv q.num (q.den : ℤ)

/-- The message `"Last ping was %v seconds ago"` of `doHostCheck`. -/
def lastPingMsg (ageSeconds : ℚ) : String :=
  "Last ping was " ++ toString ageSeconds ++ " seconds ago"

/-- `doHostCheck` from `src/check_mongodb_mms.go` (liveness mode).
`time.Since(host.LastPing)` is `now - lastPing`, in seconds. -/
def doHostCheck (check : Check) (now lastPing : ℚ)
    (critical warning : String) : Check :=
  let age := now - lastPing
  match parseRange critical with
  | .error e =>
    check.addResult .UNKNOWN ("Error parsing critical range. Error: " ++ e)
  | .ok critRange =>
    if critRange.check age then
      check.addResult .CRITICAL (lastPingMsg age)
    else
      match parseRange warning with
      | .error e =>
        check.addResult .UNKNOWN ("Error parsing warning range. Error: " ++ e)
      | .ok warnRange =>
        if warnRange.check age then
          check.addResult .WARNING (lastPingMsg age)
        else
          check.addResult .OK (lastPingMsg age)

/-- A metric data point.  Modelled from the spec: the `model` package is
absent from the sources; §3 gives each data point a timestamp and a numeric
value (the timestamp is in seconds here). -/
structure DataPoint where
  timestamp : ℚ
  value : ℚ
deriving DecidableEq, Repr

/-- A named metric time series.  Modelled from the spec: the `model` package
is absent from the sources; §3 describes a named, time-ordered sequence of
data points. -/
structure Metric where
  name : String
  dataPoints : List DataPoint
deriving DecidableEq, Repr

/-- Modelled from the spec: `Metric.ToStringLastDataPoint` of the absent
`model` package — "a fixed summary string combining the metric name and the
data point's timestamp/value" (§4.3). -/
def Metric.toStringLastDataPoint (m : Metric) : String :=
  let dp := m.dataPoints.getLastD ⟨0, 0⟩
  m.name ++ " at " ++ toString dp.timestamp ++ " is " ++ toString dp.value

/-- A host record.  Modelled from the spec: the `model` package is absent
from the sources; §3 gives an identifier, a display name, and a
last-contact timestamp. -/
structure Host where
  id : String
  name : String
  lastPing : ℚ
deriving DecidableEq, Repr

/-- The last data point taken by `doMetricCheck`
(`metric.DataPoints[len(metric.DataPoints)-1]`). -/
def Metric.lastDataPoint (m : Metric) : DataPoint :=
  m.dataPoints.getLastD ⟨0, 0⟩

/-- The staleness message of `doMetricCheck`:
`"Last data point for %v is %v seconds old."`. -/
def staleMsg (metricName : String) (ageTrunc : ℤ) : String :=
  "Last data point for " ++ metricName ++ " is " ++ toString ageTrunc ++
    " seconds old."

/-- `doMetricCheck` from `src/check_mongodb_mms.go` (metric mode).  The
fetched metric (or the fetch error) is an input; `time.Since` is `now -`
the data point's timestamp, in seconds. -/
def doMetricCheck (check : Check) (fetchResult : Except String Metric)
    (metricName : String) (now : ℚ) (maxAge : ℤ)
    (critical warning : String) : Check :=
  match fetchResult with
  | .error e => check.addResult .UNKNOWN e
  | .ok metric =>
    if metric.dataPoints.length = 0 then
      check.addResult .UNKNOWN ("No data points found for " ++ metricName)
    else
      let lastDataPoint := metric.lastDataPoint
      let age := now - lastDataPoint.timestamp
      if maxAge < truncInt age then
        check.addResult .CRITICAL (staleMsg metricName (truncInt age))
      else
        let check := check.addPerfDatum metricName "" lastDataPoint.value
        match parseRange critical with
        | .error e =>
          check.addResult .UNKNOWN
            ("Error parsing critical range. Error: " ++ e)
        | .ok critRange =>
          if critRange.check lastDataPoint.value then
            check.addResult .CRITICAL metric.toStringLastDataPoint
          else
            match parseRange warning with
            | .error e =>
              check.addResult .UNKNOWN
                ("Error parsing warning range. Error: " ++ e)
            | .ok warnRange =>
              if warnRange.check lastDataPoint.value then
                check.addResult .WARNING metric.toStringLastDataPoint
              else
                check.addResult .OK metric.toStringLastDataPoint

/-- Outcome of one invocation of `main`: either usage was printed to
standard output and the process exited with the given code before any API
request, or the check ran and reports the accumulated state. -/
inductive MainOutcome where
  | usageExit : Nat → MainOutcome
  | report : Check → MainOutcome
deriving DecidableEq, Repr

/-- The CheckResults an invocation produced: none on the usage/exit path. -/
def MainOutcome.checkResults : MainOutcome → List CheckResult
  | .usageExit _ => []
  | .report c => c.results

/-- `main` from `src/check_mongodb_mms.go`.  The outcomes of the external
API collaborator (client construction, host fetch, metric fetch) are
inputs; the flag globals are parameters. -/
def mainGo (groupId hostname metricName : String) (now : ℚ) (maxAge : ℤ)
    (critical warning : String)
    (apiInit : Except String Unit)
    (hostFetch : Except String Host)
    (metricFetch : Except String Metric) : MainOutcome :=
  if hostname = "" || groupId = "" then
    .usageExit 2
  else
    let check := emptyCheck
    match apiInit with
    | .error e =>
      .report (check.addResult .UNKNOWN ("Failed to create API. Error: " ++ e))
    | .ok _ =>
      match hostFetch with
      | .error e => .report (check.addResult .UNKNOWN e)
      | .ok host =>
        if metricName = "" then
          .report (doHostCheck check now host.lastPing critical warning)
        else
          .report (doMetricCheck check metricFetch metricName now maxAge
            critical warning)

/-- Uppercase hexadecimal digit, as Go's `"0123456789ABCDEF"` table. -/
def upperHexDigit (n : Nat) : Char :=
  if n < 10 then Char.ofNat (48 + n) else Char.ofNat (55 + n)

/-- Go `net/url` query-component escaping decision for one byte: only
alphanumerics and `-`, `_`, `.`, `~` stay unescaped (in the
`encodeQueryComponent` mode all reserved sub-delimiters are escaped). -/
def shouldEscapeQuery (b : Nat) : Bool :=
  !((65 ≤ b && b ≤ 90) || (97 ≤ b && b ≤ 122) || (48 ≤ b && b ≤ 57) ||
    b = 45 || b = 95 || b = 46 || b = 126)

/-- Go `net/url.QueryEscape` applied to one byte: kept verbatim when
unescaped, a space becomes `+`, anything else becomes `%XX` with uppercase
hex. -/
def queryEscapeByte (n : Nat) : List Char :=
  let b := n % 256
  if !shouldEscapeQuery b then [Char.ofNat b]
  else if b = 32 then ['+']
  else ['%', upperHexDigit (b / 16), upperHexDigit (b % 16)]

/-- UTF-8 encoding of one character as its list of bytes; Go strings are
byte sequences in UTF-8 and `net/url` escaping works byte by byte. -/
def utf8Bytes (c : Char) : List Nat :=
  let n := c.toNat
  if n < 128 then [n]
  else if n < 2048 then [192 + n / 64, 128 + n % 64]
  else if n < 65536 then [224 + n / 4096, 128 + n / 64 % 64, 128 + n % 64]
  else [240 + n / 262144, 128 + n / 4096 % 64, 128 + n / 64 % 64,
    128 + n % 64]

/-- Go `net/url.QueryEscape` on a string: escape each UTF-8 byte. -/
def queryEscape (s : String) : String :=
  ⟨(s.data.flatMap utf8Bytes).flatMap queryEscapeByte⟩

/-- One step of `strings.Replace(s, "+", "%20", -1)`: the pattern is a
single character, so the replacement acts character by character. -/
def plusToPct20 (c : Char) : List Char :=
  if c = '+' then ['%', '2', '0'] else [c]

/-- `escape` from `src/util/api.go`:
`strings.Replace(url.QueryEscape(piece), "+", "%20", -1)`. -/
def escape (piece : String) : String :=
  ⟨(queryEscape piece).data.flatMap plusToPct20⟩

/-- The request path built by `GetAllHosts`. -/
def getAllHostsPath (groupId : String) : String :=
  "/groups/" ++ groupId ++ "/hosts"

/-- The request path built by `GetHostByName`. -/
def getHostByNamePath (groupId name : String) : String :=
  "/groups/" ++ groupId ++ "/hosts/byName/" ++ name

/-- The request path built by `GetHostMetric`. -/
def getHostMetricPath (groupId hostId metricName granularity period :
    String) : String :=
  "/groups/" ++ groupId ++ "/hosts/" ++ hostId ++ "/metrics/" ++
    metricName ++ "?granularity=" ++ granularity ++ "&period=PT" ++ period

/-- The request path built by `GetHostDBMetric`: the only path that
percent-encodes a component, namely the database name. -/
def getHostDBMetricPath (groupId hostId metricName dbName granularity
    period : String) : String :=
  "/groups/" ++ groupId ++ "/hosts/" ++ hostId ++ "/metrics/" ++
    metricName ++ "/" ++ escape dbName ++ "?granularity=" ++ granularity ++
    "&period=PT" ++ period

/-- `handleError` from `src/util/api.go`.  The Go stdlib JSON decoding of
the error body is an external collaborator: its outcome is the input
`parsedBody` — `none` when the body is not valid JSON, otherwise the
rendered `reason` and `detail` fields of the decoded object. -/
def handleError (body : String) (parsedBody : Option (String × String)) :
    String :=
  match parsedBody with
  | none => "API response did not contain valid JSON. Body: " ++ body
  | some (reason, detail) =>
    "API Error: " ++ reason ++ " (" ++ detail ++ ")"

/-- `doGet` from `src/util/api.go`, after a successfully read response:
a non-200 status fails with `handleError`, a 200 status returns the body. -/
def doGet (statusCode : ℤ) (body : String)
    (parsedBody : Option (String × String)) : Except String String :=
  if statusCode ≠ 200 then .error (handleError body parsedBody)
  else .ok body

deriving instance DecidableEq for Except

/-- C1: in both liveness mode and metric mode the critical range is tested
before the warning range: a value violating both ranges yields a CRITICAL
result (never WARNING), and a value violating neither yields OK.  In metric
mode this is stated on the fresh, non-empty path where threshold evaluation
is reached. -/
theorem critical_tested_before_warning
    (critical warning : String) (cr wr : Range)
    (hc : parseRange critical = .ok cr) (hw : parseRange warning = .ok wr)
    (now lastPing : ℚ) (metric : Metric) (metricName : String) (maxAge : ℤ)
    (hne : metric.dataPoints ≠ [])
    (hfresh : ¬ maxAge < truncInt (now - metric.lastDataPoint.timestamp)) :
    (cr.check (now - lastPing) = true → wr.check (now - lastPing) = true →
      (doHostCheck emptyCheck now lastPing critical warning).results.map
        CheckResult.status = [Status.CRITICAL]) ∧
    (cr.check (now - lastPing) = false → wr.check (now - lastPing) = false →
      (doHostCheck emptyCheck now lastPing critical warning).results.map
        CheckResult.status = [Status.OK]) ∧
    (cr.check metric.lastDataPoint.value = true →
      wr.check metric.lastDataPoint.value = true →
      (doMetricCheck emptyCheck (.ok metric) metricName now maxAge critical
        warning).results.map CheckResult.status = [Status.CRITICAL]) ∧
    (cr.check metric.lastDataPoint.value = false →
      wr.check metric.lastDataPoint.value = false →
      (doMetricCheck emptyCheck (.ok metric) metricName now maxAge critical
        warning).results.map CheckResult.status = [Status.OK]) := by
  have hlen : ¬ metric.dataPoints.length = 0 := by
    simpa [List.length_eq_zero] using hne
  refine ⟨?_, ?_, ?_, ?_⟩ <;> intro h1 h2 <;>
    simp [doHostCheck, doMetricCheck, hc, hw, h1, h2, hlen, hfresh,
      emptyCheck, Check.addResult, Check.addPerfDatum]

/-- C1 witness: value 500 violates both `:300` and `:200` in both modes and
the result is CRITICAL. -/
theorem critical_tested_before_warning_witness :
    (doHostCheck emptyCheck 500 0 ":300" ":200").results.map
      CheckResult.status = [Status.CRITICAL] ∧
    (doMetricCheck emptyCheck (.ok ⟨"m", [⟨400, 500⟩]⟩) "m" 500 360 ":300"
      ":200").results.map CheckResult.status = [Status.CRITICAL] := by
  have h := critical_tested_before_warning ":300" ":200"
    ⟨false, some 0, some 300⟩ ⟨false, some 0, some 200⟩ (by decide)
    (by decide) 500 0 ⟨"m", [⟨400, 500⟩]⟩ "m" 360 (by decide)
    (by norm_num [Metric.lastDataPoint, truncInt])
  exact ⟨h.1 (by norm_num [Range.check]) (by norm_num [Range.check]),
    h.2.2.1 (by norm_num [Metric.lastDataPoint, Range.check])
      (by norm_num [Metric.lastDataPoint, Range.check])⟩

/-- C2: in metric mode with at least one data point, when the truncated age
of the last data point exceeds `maxAge` the result is CRITICAL with the
staleness message naming the metric and the truncated age, regardless of
the data point's value and of the range strings, and no performance datum
is attached. -/
theorem stale_data_point_is_critical
    (metric : Metric) (metricName : String) (now : ℚ) (maxAge : ℤ)
    (critical warning : String)
    (hne : metric.dataPoints ≠ [])
    (hstale : maxAge < truncInt (now - metric.lastDataPoint.timestamp)) :
    doMetricCheck emptyCheck (.ok metric) metricName now maxAge critical
      warning =
    ⟨[⟨Status.CRITICAL,
        staleMsg metricName
          (truncInt (now - metric.lastDataPoint.timestamp))⟩], []⟩ := by
  have hlen : ¬ metric.dataPoints.length = 0 := by
    simpa [List.length_eq_zero] using hne
  simp [doMetricCheck, hlen, hstale, emptyCheck, Check.addResult]

/-- C2 witness: a data point 1000 seconds old with maxAge 360 is CRITICAL
for staleness with no performance datum, even though its value 42 is inside
both ranges. -/
theorem stale_data_point_is_critical_witness :
    doMetricCheck emptyCheck (.ok ⟨"m", [⟨0, 42⟩]⟩) "m" 1000 360 "~:" "~:" =
    ⟨[⟨Status.CRITICAL, staleMsg "m" 1000⟩], []⟩ := by
  have h := stale_data_point_is_critical ⟨"m", [⟨0, 42⟩]⟩ "m" 1000 360 "~:"
    "~:" (by decide) (by norm_num [Metric.lastDataPoint, truncInt])
  simpa [Metric.lastDataPoint, truncInt] using h

/-- Liveness mode always produces exactly one outcome record. -/
theorem doHostCheck_results_length (now lastPing : ℚ)
    (critical warning : String) :
    (doHostCheck emptyCheck now lastPing critical warning).results.length
      = 1 := by
  unfold doHostCheck
  cases parseRange critical with
  | error e => simp [emptyCheck, Check.addResult]
  | ok cr =>
    by_cases hcv : cr.check (now - lastPing) = true
    · simp [hcv, emptyCheck, Check.addResult]
    · cases parseRange warning with
      | error e => simp [hcv, emptyCheck, Check.addResult]
      | ok wr =>
        by_cases hwv : wr.check (now - lastPing) = true <;>
          simp [hcv, hwv, emptyCheck, Check.addResult]

/-- Metric mode always produces exactly one outcome record. -/
theorem doMetricCheck_results_length (fetchResult : Except String Metric)
    (metricName : String) (now : ℚ) (maxAge : ℤ)
    (critical warning : String) :
    (doMetricCheck emptyCheck fetchResult metricName now maxAge critical
      warning).results.length = 1 := by
  unfold doMetricCheck
  cases fetchResult with
  | error e => simp [emptyCheck, Check.addResult]
  | ok metric =>
    by_cases hz : metric.dataPoints.length = 0
    · simp [hz, emptyCheck, Check.addResult]
    · by_cases hstale : maxAge < truncInt (now - metric.lastDataPoint.timestamp)
      · simp [hz, hstale, emptyCheck, Check.addResult]
      · cases parseRange critical with
        | error e =>
          simp [hz, hstale, emptyCheck, Check.addResult, Check.addPerfDatum]
        | ok cr =>
          by_cases hcv : cr.check metric.lastDataPoint.value = true
          · simp [hz, hstale, hcv, emptyCheck, Check.addResult,
              Check.addPerfDatum]
          · cases parseRange warning with
            | error e =>
              simp [hz, hstale, hcv, emptyCheck, Check.addResult,
                Check.addPerfDatum]
            | ok wr =>
              by_cases hwv : wr.check metric.lastDataPoint.value = true <;>
                simp [hz, hstale, hcv, hwv, emptyCheck, Check.addResult,
                  Check.addPerfDatum]

/-- C3: every threshold-parse failure and every fetch failure yields an
UNKNOWN result carrying the underlying error text and aborts the remaining
evaluation, and an invocation never produces more than one CheckResult. -/
theorem failures_yield_unknown_and_abort
    (now lastPing : ℚ) (metricName : String) (maxAge : ℤ)
    (metric : Metric) (e : String) :
    (∀ critical warning, parseRange critical = .error e →
      doHostCheck emptyCheck now lastPing critical warning =
        ⟨[⟨Status.UNKNOWN, "Error parsing critical range. Error: " ++ e⟩],
          []⟩) ∧
    (∀ critical warning cr, parseRange critical = .ok cr →
      cr.check (now - lastPing) = false → parseRange warning = .error e →
      doHostCheck emptyCheck now lastPing critical warning =
        ⟨[⟨Status.UNKNOWN, "Error parsing warning range. Error: " ++ e⟩],
          []⟩) ∧
    (∀ critical warning,
      doMetricCheck emptyCheck (.error e) metricName now maxAge critical
        warning = ⟨[⟨Status.UNKNOWN, e⟩], []⟩) ∧
    (∀ critical warning, metric.dataPoints ≠ [] →
      ¬ maxAge < truncInt (now - metric.lastDataPoint.timestamp) →
      parseRange critical = .error e →
      (doMetricCheck emptyCheck (.ok metric) metricName now maxAge critical
        warning).results =
        [⟨Status.UNKNOWN, "Error parsing critical range. Error: " ++ e⟩]) ∧
    (∀ critical warning cr, metric.dataPoints ≠ [] →
      ¬ maxAge < truncInt (now - metric.lastDataPoint.timestamp) →
      parseRange critical = .ok cr →
      cr.check metric.lastDataPoint.value = false →
      parseRange warning = .error e →
      (doMetricCheck emptyCheck (.ok metric) metricName now maxAge critical
        warning).results =
        [⟨Status.UNKNOWN, "Error parsing warning range. Error: " ++ e⟩]) ∧
    (∀ groupId hostname critical warning apiInit hostFetch metricFetch,
      (mainGo groupId hostname metricName now maxAge critical warning
        apiInit hostFetch metricFetch).checkResults.length ≤ 1) := by
  refine ⟨?_, ?_, ?_, ?_, ?_, ?_⟩
  · intro critical warning hce
    simp [doHostCheck, hce, emptyCheck, Check.addResult]
  · intro critical warning cr hc hcv hwe
    simp [doHostCheck, hc, hcv, hwe, emptyCheck, Check.addResult]
  · intro critical warning
    simp [doMetricCheck, emptyCheck, Check.addResult]
  · intro critical warning hne hfresh hce
    have hlen : ¬ metric.dataPoints.length = 0 := by
      simpa [List.length_eq_zero] using hne
    simp [doMetricCheck, hlen, hfresh, hce, emptyCheck, Check.addResult,
      Check.addPerfDatum]
  · intro critical warning cr hne hfresh hc hcv hwe
    have hlen : ¬ metric.dataPoints.length = 0 := by
      simpa [List.length_eq_zero] using hne
    simp [doMetricCheck, hlen, hfresh, hc, hcv, hwe, emptyCheck,
      Check.addResult, Check.addPerfDatum]
  · intro groupId hostname critical warning apiInit hostFetch metricFetch
    unfold mainGo
    by_cases hflag : (decide (hostname = "") || decide (groupId = "")) = true
    · simp [hflag, MainOutcome.checkResults]
    · cases apiInit with
      | error e' => simp [hflag, MainOutcome.checkResults, emptyCheck,
          Check.addResult]
      | ok u =>
        cases hostFetch with
        | error e' => simp [hflag, MainOutcome.checkResults, emptyCheck,
            Check.addResult]
        | ok host =>
          by_cases hm : metricName = ""
          · simp [hflag, hm, MainOutcome.checkResults,
              doHostCheck_results_length]
          · simp [hflag, hm, MainOutcome.checkResults,
              doMetricCheck_results_length]

/-- C3 witness: a malformed critical range spec in liveness mode yields the
single UNKNOWN parse-error result. -/
theorem failures_yield_unknown_and_abort_witness :
    doHostCheck emptyCheck 500 0 "abc" "~:" =
      ⟨[⟨Status.UNKNOWN,
          "Error parsing critical range. Error: unparseable range abc"⟩],
        []⟩ := by
  have h := failures_yield_unknown_and_abort 500 0 "m" 360 ⟨"m", []⟩
    "unparseable range abc"
  exact h.1 "abc" "~:" (by decide)

/-- C4: a successful metric fetch with zero data points yields UNKNOWN with
a message mentioning the metric name, no performance datum, and no further
evaluation. -/
theorem zero_data_points_unknown
    (metric : Metric) (metricName : String) (now : ℚ) (maxAge : ℤ)
    (critical warning : String) (hempty : metric.dataPoints = []) :
    doMetricCheck emptyCheck (.ok metric) metricName now maxAge critical
      warning =
      ⟨[⟨Status.UNKNOWN, "No data points found for " ++ metricName⟩],
        []⟩ ∧
    ∃ pre post,
      "No data points found for " ++ metricName = pre ++ metricName ++ post
    := by
  refine ⟨?_, "No data points found for ", "", by simp⟩
  simp [doMetricCheck, hempty, emptyCheck, Check.addResult]

/-- C4 witness: zero data points for metric `m` gives the UNKNOWN result
naming `m`. -/
theorem zero_data_points_unknown_witness :
    doMetricCheck emptyCheck (.ok ⟨"m", []⟩) "m" 500 360 "~:" "~:" =
      ⟨[⟨Status.UNKNOWN, "No data points found for m"⟩], []⟩ := by
  have h := zero_data_points_unknown ⟨"m", []⟩ "m" 500 360 "~:" "~:" rfl
  simpa using h.1

/-- C5: on the fresh metric path exactly one performance datum is attached
— metric name, empty unit, the fetched raw value — and it is present
whatever the threshold strings are, so in particular before any threshold
parsing or evaluation can fail or classify. -/
theorem fresh_metric_attaches_datum
    (metric : Metric) (metricName : String) (now : ℚ) (maxAge : ℤ)
    (critical warning : String)
    (hne : metric.dataPoints ≠ [])
    (hfresh : ¬ maxAge < truncInt (now - metric.lastDataPoint.timestamp)) :
    (doMetricCheck emptyCheck (.ok metric) metricName now maxAge critical
      warning).perfData =
      [⟨metricName, "", metric.lastDataPoint.value⟩] := by
  have hlen : ¬ metric.dataPoints.length = 0 := by
    simpa [List.length_eq_zero] using hne
  unfold doMetricCheck
  cases parseRange critical with
  | error e =>
    simp [hlen, hfresh, emptyCheck, Check.addResult, Check.addPerfDatum]
  | ok cr =>
    by_cases hcv : cr.check metric.lastDataPoint.value = true
    · simp [hlen, hfresh, hcv, emptyCheck, Check.addResult,
        Check.addPerfDatum]
    · cases parseRange warning with
      | error e =>
        simp [hlen, hfresh, hcv, emptyCheck, Check.addResult,
          Check.addPerfDatum]
      | ok wr =>
        by_cases hwv : wr.check metric.lastDataPoint.value = true <;>
          simp [hlen, hfresh, hcv, hwv, emptyCheck, Check.addResult,
            Check.addPerfDatum]

/-- C5 witness: a fresh data point of value 42 attaches exactly the datum
`(m, "", 42)`. -/
theorem fresh_metric_attaches_datum_witness :
    (doMetricCheck emptyCheck (.ok ⟨"m", [⟨400, 42⟩]⟩) "m" 500 360 "~:"
      "~:").perfData = [⟨"m", "", 42⟩] := by
  have h := fresh_metric_attaches_datum ⟨"m", [⟨400, 42⟩]⟩ "m" 500 360 "~:"
    "~:" (by decide) (by norm_num [Metric.lastDataPoint, truncInt])
  simpa [Metric.lastDataPoint] using h

/-- C9: the warning range string is parsed only after the critical range
check came out non-violating: in both modes, a value violating the
critical range yields CRITICAL even when the warning range spec is
malformed — not an UNKNOWN parse-error result. -/
theorem malformed_warning_masked_by_critical
    (critical warning e : String) (cr : Range)
    (hw : parseRange warning = .error e) (hc : parseRange critical = .ok cr) :
    (∀ now lastPing : ℚ, cr.check (now - lastPing) = true →
      (doHostCheck emptyCheck now lastPing critical warning).results.map
        CheckResult.status = [Status.CRITICAL]) ∧
    (∀ (metric : Metric) (metricName : String) (now : ℚ) (maxAge : ℤ),
      metric.dataPoints ≠ [] →
      ¬ maxAge < truncInt (now - metric.lastDataPoint.timestamp) →
      cr.check metric.lastDataPoint.value = true →
      (doMetricCheck emptyCheck (.ok metric) metricName now maxAge critical
        warning).results.map CheckResult.status = [Status.CRITICAL]) := by
  constructor
  · intro now lastPing hcv
    simp [doHostCheck, hc, hcv, emptyCheck, Check.addResult]
  · intro metric metricName now maxAge hne hfresh hcv
    have hlen : ¬ metric.dataPoints.length = 0 := by
      simpa [List.length_eq_zero] using hne
    simp [doMetricCheck, hc, hcv, hlen, hfresh, emptyCheck, Check.addResult,
      Check.addPerfDatum]

/-- C9 witness: with critical `:300` violated by age/value 500 and the
malformed warning spec `abc`, both modes report CRITICAL. -/
theorem malformed_warning_masked_by_critical_witness :
    (doHostCheck emptyCheck 500 0 ":300" "abc").results.map
      CheckResult.status = [Status.CRITICAL] ∧
    (doMetricCheck emptyCheck (.ok ⟨"m", [⟨400, 500⟩]⟩) "m" 500 360 ":300"
      "abc").results.map CheckResult.status = [Status.CRITICAL] := by
  have h := malformed_warning_masked_by_critical ":300" "abc"
    "unparseable range abc" ⟨false, some 0, some 300⟩ (by decide) (by decide)
  exact ⟨h.1 500 0 (by norm_num [Range.check]),
    h.2 ⟨"m", [⟨400, 500⟩]⟩ "m" 500 360 (by decide)
      (by norm_num [Metric.lastDataPoint, truncInt])
      (by norm_num [Metric.lastDataPoint, Range.check])⟩

/-- C10: on the fresh metric path a malformed critical (or warning) range
spec produces the UNKNOWN parse-error result while the performance datum
has already been attached, so an UNKNOWN outcome carries a performance
datum. -/
theorem unknown_can_carry_perf_datum
    (metric : Metric) (metricName : String) (now : ℚ) (maxAge : ℤ)
    (hne : metric.dataPoints ≠ [])
    (hfresh : ¬ maxAge < truncInt (now - metric.lastDataPoint.timestamp)) :
    (∀ critical warning e, parseRange critical = .error e →
      doMetricCheck emptyCheck (.ok metric) metricName now maxAge critical
        warning =
        ⟨[⟨Status.UNKNOWN, "Error parsing critical range. Error: " ++ e⟩],
          [⟨metricName, "", metric.lastDataPoint.value⟩]⟩) ∧
    (∀ critical warning cr e, parseRange critical = .ok cr →
      cr.check metric.lastDataPoint.value = false →
      parseRange warning = .error e →
      doMetricCheck emptyCheck (.ok metric) metricName now maxAge critical
        warning =
        ⟨[⟨Status.UNKNOWN, "Error parsing warning range. Error: " ++ e⟩],
          [⟨metricName, "", metric.lastDataPoint.value⟩]⟩) := by
  have hlen : ¬ metric.dataPoints.length = 0 := by
    simpa [List.length_eq_zero] using hne
  constructor
  · intro critical warning e hce
    simp [doMetricCheck, hce, hlen, hfresh, emptyCheck, Check.addResult,
      Check.addPerfDatum]
  · intro critical warning cr e hc hcv hwe
    simp [doMetricCheck, hc, hcv, hwe, hlen, hfresh, emptyCheck,
      Check.addResult, Check.addPerfDatum]

/-- C10 witness: malformed critical spec `abc` on a fresh data point of
value 42 yields UNKNOWN together with the attached datum `(m, "", 42)`. -/
theorem unknown_can_carry_perf_datum_witness :
    doMetricCheck emptyCheck (.ok ⟨"m", [⟨400, 42⟩]⟩) "m" 500 360 "abc" "~:" =
      ⟨[⟨Status.UNKNOWN,
          "Error parsing critical range. Error: unparseable range abc"⟩],
        [⟨"m", "", 42⟩]⟩ := by
  have h := unknown_can_carry_perf_datum ⟨"m", [⟨400, 42⟩]⟩ "m" 500 360
    (by decide) (by norm_num [Metric.lastDataPoint, truncInt])
  simpa [Metric.lastDataPoint] using
    h.1 "abc" "~:" "unparseable range abc" (by decide)

set_option maxRecDepth 8192 in
/-- Every character emitted for one escaped byte, after the `+`-to-`%20`
replacement, is alphanumeric or one of `-`, `_`, `.`, `~`, `%`. -/
theorem queryEscapeByte_plus_chars (n : Nat) (d : Char)
    (hd : d ∈ queryEscapeByte n) (c : Char) (hc : c ∈ plusToPct20 d) :
    (c.isAlphanum || c = '-' || c = '_' || c = '.' || c = '~' || c = '%')
      = true := by
  have hn : queryEscapeByte n = queryEscapeByte (n % 256) := by
    simp [queryEscapeByte, Nat.mod_mod_of_dvd]
  rw [hn] at hd
  have hlt : n % 256 < 256 := Nat.mod_lt _ (by norm_num)
  have key : ∀ i : Fin 256, ∀ d ∈ queryEscapeByte i.val,
      ∀ c ∈ plusToPct20 d,
      (c.isAlphanum || c = '-' || c = '_' || c = '.' || c = '~' || c = '%')
        = true := by decide
  exact key ⟨n % 256, hlt⟩ d hd c hc

/-- C6: the database name is percent-encoded with every reserved character
escaped — the output contains only unreserved characters and percent
escapes, so in particular no raw `/` or space — a literal space becomes
`%20` (replacing the `+` that query escaping produces), and among the four
request path builders only the database-scoped one applies the encoding,
to the database name. -/
theorem dbname_percent_encoding :
    (∀ s : String, ∀ c ∈ (escape s).data,
      (c.isAlphanum || c = '-' || c = '_' || c = '.' || c = '~' || c = '%')
        = true) ∧
    queryEscape "a b/c" = "a+b%2Fc" ∧
    escape "a b/c" = "a%20b%2Fc" ∧
    getHostDBMetricPath "g" "h" "m" "a b/c" "MINUTE" "1H" =
      "/groups/g/hosts/h/metrics/m/a%20b%2Fc?granularity=MINUTE&period=PT1H"
      ∧
    getHostMetricPath "g" "h" "a b/c" "MINUTE" "1H" =
      "/groups/g/hosts/h/metrics/a b/c?granularity=MINUTE&period=PT1H" ∧
    getHostByNamePath "g" "a b/c" = "/groups/g/hosts/byName/a b/c" ∧
    getAllHostsPath "a b/c" = "/groups/a b/c/hosts" := by
  refine ⟨?_, by decide, by decide, by decide, by decide, by decide,
    by decide⟩
  intro s c hc
  have hc' :
      c ∈ ((s.data.flatMap utf8Bytes).flatMap queryEscapeByte).flatMap
        plusToPct20 := hc
  rw [List.mem_flatMap] at hc'
  obtain ⟨d, hd, hcd⟩ := hc'
  rw [List.mem_flatMap] at hd
  obtain ⟨n, hn, hdn⟩ := hd
  exact queryEscapeByte_plus_chars n d hdn c hcd

/-- C6 witness: the escaped form of `a b` contains `%`, which the theorem
certifies as an allowed output character. -/
theorem dbname_percent_encoding_witness :
    ('%'.isAlphanum || '%' = '-' || '%' = '_' || '%' = '.' || '%' = '~' ||
      '%' = '%') = true :=
  dbname_percent_encoding.1 "a b" '%' (by decide)

/-- C7: a non-200 response whose body decodes as JSON produces an error
message embedding both the `reason` and `detail` fields; a body that is
not valid JSON produces the generic decode-failure message naming the raw
body; and either way the fetch error surfaces as the single UNKNOWN
outcome of the check. -/
theorem non200_error_messages
    (statusCode : ℤ) (body reason detail : String)
    (hstatus : statusCode ≠ 200) :
    doGet statusCode body (some (reason, detail)) =
      .error ("API Error: " ++ reason ++ " (" ++ detail ++ ")") ∧
    doGet statusCode body none =
      .error ("API response did not contain valid JSON. Body: " ++ body) ∧
    (∀ (e metricName : String) (now : ℚ) (maxAge : ℤ)
      (critical warning : String),
      doMetricCheck emptyCheck (.error e) metricName now maxAge critical
        warning = ⟨[⟨Status.UNKNOWN, e⟩], []⟩) := by
  refine ⟨by simp [doGet, handleError, hstatus],
    by simp [doGet, handleError, hstatus], ?_⟩
  intro e metricName now maxAge critical warning
  simp [doMetricCheck, emptyCheck, Check.addResult]

/-- C7 witness: a 404 with body `{"reason":"r","detail":"d"}` yields the
structured message, and an unparseable body the generic one. -/
theorem non200_error_messages_witness :
    doGet 404 "raw" (some ("r", "d")) = .error "API Error: r (d)" ∧
    doGet 404 "raw" none =
      .error "API response did not contain valid JSON. Body: raw" := by
  have h := non200_error_messages 404 "raw" "r" "d" (by decide)
  exact ⟨by simpa using h.1, by simpa using h.2.1⟩

/-- C8: an empty group-id or hostname flag makes `main` print usage and
exit with code 2, independently of every API collaborator outcome, and no
CheckResult is produced. -/
theorem missing_flags_usage_exit
    (groupId hostname metricName : String) (now : ℚ) (maxAge : ℤ)
    (critical warning : String) (apiInit : Except String Unit)
    (hostFetch : Except String Host) (metricFetch : Except String Metric)
    (h : hostname = "" ∨ groupId = "") :
    mainGo groupId hostname metricName now maxAge critical warning apiInit
      hostFetch metricFetch = .usageExit 2 ∧
    (mainGo groupId hostname metricName now maxAge critical warning apiInit
      hostFetch metricFetch).checkResults = [] := by
  have hflag : (decide (hostname = "") || decide (groupId = "")) = true := by
    rcases h with h | h <;> simp [h]
  constructor <;> simp [mainGo, hflag, MainOutcome.checkResults]

/-- C8 witness: with an empty hostname the invocation exits with code 2
and produces no CheckResult, whatever the API would have returned. -/
theorem missing_flags_usage_exit_witness :
    mainGo "g" "" "m" 0 360 "~:" "~:" (.ok ()) (.error "boom")
      (.error "boom") = .usageExit 2 ∧
    (mainGo "g" "" "m" 0 360 "~:" "~:" (.ok ()) (.error "boom")
      (.error "boom")).checkResults = [] :=
  missing_flags_usage_exit "g" "" "m" 0 360 "~:" "~:" (.ok ())
    (.error "boom") (.error "boom") (Or.inl rfl)

end CheckMongodbMMS
